import Mathlib

/-!
Shallow embedding of the microphone waveform-visualizer component
(src/src/components/MicrophoneVisualizer.tsx, with the simpler variant in
src/unnamed/part_000 sharing the theme / start / stop / unmount code).

The component is modelled as a pure state machine. React's commit ordering
is made explicit: a state setter commits before any effect that is
triggered by a later setter runs, so the effect on a waveform change sees
the recording flag already cleared by the preceding stopRecording call.
External library calls are modelled by their observable effect on the
component: instance creation / destruction is appended to an action log,
the record plugin's capture state is a boolean, toasts and console errors
are accumulated in lists, and the microphone-permission outcome is an
explicit boolean input to every operation that may request the microphone.
-/

namespace MicrophoneVisualizer

/-- The fixed theme enumeration (keys of the visualizerThemes object). -/
inductive Theme
  | classic
  | neon
  | sunset
deriving DecidableEq

/-- The fixed waveform-style enumeration (keys of the waveformTypes object). -/
inductive WaveformType
  | bars
  | line
  | points
  | rounded
deriving DecidableEq

/-- A theme preset: wave color, progress color, cursor color. -/
structure ThemeColors where
  waveColor : String
  progressColor : String
  cursorColor : String
deriving DecidableEq

/-- The visualizerThemes constant (source lines 10-26). -/
def visualizerThemes : Theme → ThemeColors
  | .classic => ⟨"#9b87f5", "#7E69AB", "transparent"⟩
  | .neon => ⟨"#33C3F0", "#0EA5E9", "transparent"⟩
  | .sunset => ⟨"#F97316", "#D946EF", "transparent"⟩

/-- A waveform-style preset. The TypeScript objects are open records spread
into the constructor options; the keys that a preset omits (barGap and
barRadius for the line style) are modelled as `none`, meaning the library
default applies. -/
structure WaveformParams where
  barWidth : Nat
  barGap : Option Nat
  barRadius : Option Nat
  wave : Bool
deriving DecidableEq

/-- The waveformTypes constant (source lines 28-51). The line style only
sets barWidth and wave. -/
def waveformTypes : WaveformType → WaveformParams
  | .bars => ⟨2, some 3, some 3, false⟩
  | .line => ⟨0, none, none, true⟩
  | .points => ⟨1, some 4, some 50, false⟩
  | .rounded => ⟨3, some 2, some 30, false⟩

/-- The options held by a live WaveSurfer instance, as far as the component
sets them. -/
structure WaveSurferOptions where
  waveColor : String
  progressColor : String
  cursorColor : String
  height : Nat
  barWidth : Nat
  barGap : Option Nat
  barRadius : Option Nat
  wave : Bool
deriving DecidableEq

/-- A live visualizer instance: an identity (creation order) plus its
current options. -/
structure WSInstance where
  id : Nat
  options : WaveSurferOptions
deriving DecidableEq

/-- A toast notification as passed to the toast function; destructive
corresponds to the variant "destructive" field. -/
structure Toast where
  title : String
  description : String
  destructive : Bool
deriving DecidableEq

/-- One entry of the instance-lifecycle log: a WaveSurfer.create call or a
destroy call, recorded in execution order. -/
inductive InstAction
  | created (id : Nat)
  | destroyed (id : Nat)
deriving DecidableEq

/-- The component's observable state: refs, React state, and the logs of
external effects. -/
structure ComponentState where
  wavesurfer : Option WSInstance
  recordActive : Bool
  isRecording : Bool
  currentTheme : Theme
  currentWaveform : WaveformType
  toasts : List Toast
  consoleErrors : List String
  nextId : Nat
  log : List InstAction
deriving DecidableEq

/-- The toast in the startRecording success branch (lines 111-114). -/
def recordingStartedToast : Toast :=
  ⟨"Recording started", "Your microphone is now active", false⟩

/-- The toast in the startRecording catch branch (lines 116-120). -/
def permissionDeniedToast : Toast :=
  ⟨"Permission denied", "Please allow microphone access to use this feature", true⟩

/-- The toast in stopRecording (lines 127-130). -/
def recordingStoppedToast : Toast :=
  ⟨"Recording stopped", "Your microphone is now inactive", false⟩

/-- Options passed to WaveSurfer.create (lines 69-76): theme colors,
height 200, and the spread of the current waveform preset. -/
def createOptions (t : Theme) (w : WaveformType) : WaveSurferOptions :=
  { waveColor := (visualizerThemes t).waveColor
    progressColor := (visualizerThemes t).progressColor
    cursorColor := (visualizerThemes t).cursorColor
    height := 200
    barWidth := (waveformTypes w).barWidth
    barGap := (waveformTypes w).barGap
    barRadius := (waveformTypes w).barRadius
    wave := (waveformTypes w).wave }

/-- initializeWaveSurfer (lines 61-87): destroy the previous instance if
any, create a fresh instance from the current theme and waveform, register
a fresh record plugin (capture off), and, if the recording flag is set,
restart recording: on success capture turns on, on failure (permission
denied, modelled by the perm input) the catch logs a console error and
clears the recording flag without any toast. -/
def initializeWaveSurfer (perm : Bool) (s : ComponentState) : ComponentState :=
  let s1 :=
    match s.wavesurfer with
    | some ws => { s with wavesurfer := none, log := s.log ++ [InstAction.destroyed ws.id] }
    | none => s
  let inst : WSInstance := ⟨s1.nextId, createOptions s1.currentTheme s1.currentWaveform⟩
  let s2 := { s1 with
    wavesurfer := some inst
    nextId := s1.nextId + 1
    recordActive := false
    log := s1.log ++ [InstAction.created inst.id] }
  if s2.isRecording then
    if perm then { s2 with recordActive := true }
    else { s2 with
      isRecording := false
      consoleErrors := s2.consoleErrors ++ ["Error restarting recording"] }
  else s2

/-- startRecording (lines 107-122): on grant, capture starts, the recording
flag is set and a success toast is shown; on denial the catch shows a
destructive toast and changes nothing else. -/
def startRecording (perm : Bool) (s : ComponentState) : ComponentState :=
  if perm then
    { s with
      recordActive := true
      isRecording := true
      toasts := s.toasts ++ [recordingStartedToast] }
  else
    { s with toasts := s.toasts ++ [permissionDeniedToast] }

/-- stopRecording (lines 124-131): capture stops, the recording flag is
cleared, and a "Recording stopped" toast is shown, unconditionally. -/
def stopRecording (s : ComponentState) : ComponentState :=
  { s with
    recordActive := false
    isRecording := false
    toasts := s.toasts ++ [recordingStoppedToast] }

/-- The effect with dependency currentTheme (lines 98-105): if an instance
exists, setOptions is called with only waveColor and progressColor from the
current theme. -/
def applyThemeEffect (s : ComponentState) : ComponentState :=
  match s.wavesurfer with
  | none => s
  | some ws =>
    { s with wavesurfer := some { ws with options :=
        { ws.options with
            waveColor := (visualizerThemes s.currentTheme).waveColor
            progressColor := (visualizerThemes s.currentTheme).progressColor } } }

/-- A theme button click (line 198): setCurrentTheme followed by the theme
effect on the committed state. -/
def handleThemeChange (t : Theme) (s : ComponentState) : ComponentState :=
  applyThemeEffect { s with currentTheme := t }

/-- handleWaveformChange (lines 133-141): while recording, stopRecording
runs and commits first (clearing the recording flag and toasting), then
setCurrentWaveform triggers the effect (lines 89-96) which calls
initializeWaveSurfer on the committed state; otherwise setCurrentWaveform
triggers the effect directly. -/
def handleWaveformChange (t : WaveformType) (perm : Bool) (s : ComponentState) :
    ComponentState :=
  if s.isRecording then
    initializeWaveSurfer perm { stopRecording s with currentWaveform := t }
  else
    initializeWaveSurfer perm { s with currentWaveform := t }

/-- The effect cleanup on unmount (lines 91-95): destroy the current
instance if it exists. -/
def unmount (s : ComponentState) : ComponentState :=
  match s.wavesurfer with
  | some ws => { s with wavesurfer := none, log := s.log ++ [InstAction.destroyed ws.id] }
  | none => s

/-- The initial React state (lines 57-59) before any effect runs. -/
def initState : ComponentState :=
  { wavesurfer := none
    recordActive := false
    isRecording := false
    currentTheme := .classic
    currentWaveform := .bars
    toasts := []
    consoleErrors := []
    nextId := 0
    log := [] }

/-- Mounting the component: the waveform effect (line 90) runs
initializeWaveSurfer, then the theme effect runs. The permission input is
irrelevant on mount since the recording flag starts false. -/
def mount (s : ComponentState) : ComponentState :=
  applyThemeEffect (initializeWaveSurfer true s)

/-- The user-driven events of the component. -/
inductive Event
  | themeChange (t : Theme)
  | waveformChange (t : WaveformType) (perm : Bool)
  | startRec (perm : Bool)
  | stopRec
deriving DecidableEq

/-- One event step. -/
def step (e : Event) (s : ComponentState) : ComponentState :=
  match e with
  | .themeChange t => handleThemeChange t s
  | .waveformChange t p => handleWaveformChange t p s
  | .startRec p => startRecording p s
  | .stopRec => stopRecording s

/-- Running a sequence of events. -/
def run (es : List Event) (s : ComponentState) : ComponentState :=
  es.foldl (fun a e => step e a) s

/-- The ids of the instances alive after replaying an action log on top of
an initially-alive list. -/
def liveAfter (live : List Nat) : List InstAction → List Nat
  | [] => live
  | .created i :: rest => liveAfter (live ++ [i]) rest
  | .destroyed i :: rest => liveAfter (live.erase i) rest

/-- An action log is well formed when every create happens while no
instance is alive (the previous one was already destroyed) and every
destroy targets a live instance. -/
def logOk (live : List Nat) : List InstAction → Bool
  | [] => true
  | .created i :: rest => live.isEmpty && logOk (live ++ [i]) rest
  | .destroyed i :: rest => live.contains i && logOk (live.erase i) rest

/-- The ids the component currently holds alive. -/
def currentLive (s : ComponentState) : List Nat :=
  match s.wavesurfer with
  | some ws => [ws.id]
  | none => []

/-- A concrete state with a recording in progress: mount, then a granted
start-recording click. -/
def sRec : ComponentState :=
  startRecording true (mount initState)



/-! Helper lemmas about the action log and the state-machine invariant. -/

theorem liveAfter_append (l1 l2 : List InstAction) :
    ∀ live, liveAfter live (l1 ++ l2) = liveAfter (liveAfter live l1) l2 := by
  induction l1 with
  | nil => intro live; rfl
  | cons a rest ih => intro live; cases a <;> simp [liveAfter, ih]

theorem logOk_append (l1 l2 : List InstAction) :
    ∀ live, logOk live (l1 ++ l2) = (logOk live l1 && logOk (liveAfter live l1) l2) := by
  induction l1 with
  | nil => intro live; simp [logOk, liveAfter]
  | cons a rest ih => intro live; cases a <;> simp [logOk, liveAfter, ih, Bool.and_assoc]

theorem initializeWaveSurfer_char (p : Bool) (s : ComponentState) :
    (initializeWaveSurfer p s).log =
      s.log ++ (match s.wavesurfer with
                | some ws => [InstAction.destroyed ws.id]
                | none => []) ++ [InstAction.created s.nextId] ∧
    (initializeWaveSurfer p s).wavesurfer =
      some ⟨s.nextId, createOptions s.currentTheme s.currentWaveform⟩ ∧
    (initializeWaveSurfer p s).toasts = s.toasts := by
  cases hw : s.wavesurfer <;> cases hr : s.isRecording <;> cases p <;>
    simp [initializeWaveSurfer, hw, hr]

/-- The reachability invariant for the instance-lifecycle log: the log is
well formed and replaying it yields exactly the instance the component
currently holds. -/
def Inv (s : ComponentState) : Prop :=
  logOk [] s.log = true ∧ liveAfter [] s.log = currentLive s

theorem handleThemeChange_char (t : Theme) (s : ComponentState) :
    handleThemeChange t s =
      { s with
          currentTheme := t
          wavesurfer := s.wavesurfer.map (fun ws =>
            { ws with options :=
                { ws.options with
                    waveColor := (visualizerThemes t).waveColor
                    progressColor := (visualizerThemes t).progressColor } }) } := by
  cases hw : s.wavesurfer <;> simp [handleThemeChange, applyThemeEffect, hw]

theorem inv_initializeWaveSurfer (p : Bool) (s : ComponentState) (h : Inv s) :
    Inv (initializeWaveSurfer p s) := by
  obtain ⟨h1, h2⟩ := h
  obtain ⟨hl, hw, -⟩ := initializeWaveSurfer_char p s
  constructor
  · simp only [hl, logOk_append, liveAfter_append, h1, h2]
    cases hc : s.wavesurfer <;> simp [currentLive, hc, logOk, liveAfter]
  · simp only [hl, liveAfter_append, h2, currentLive, hw]
    cases hc : s.wavesurfer <;> simp [hc, liveAfter]

theorem inv_step (e : Event) (s : ComponentState) (h : Inv s) : Inv (step e s) := by
  cases e with
  | themeChange t =>
    obtain ⟨h1, h2⟩ := h
    show Inv (handleThemeChange t s)
    rw [handleThemeChange_char]
    refine ⟨h1, ?_⟩
    rw [h2]
    cases hw : s.wavesurfer <;> simp [currentLive, hw]
  | waveformChange t p =>
    show Inv (handleWaveformChange t p s)
    unfold handleWaveformChange
    split
    · exact inv_initializeWaveSurfer p _ ⟨h.1, h.2⟩
    · exact inv_initializeWaveSurfer p _ ⟨h.1, h.2⟩
  | startRec p => cases p <;> exact ⟨h.1, h.2⟩
  | stopRec => exact ⟨h.1, h.2⟩

theorem inv_run (es : List Event) (s : ComponentState) (h : Inv s) : Inv (run es s) := by
  induction es generalizing s with
  | nil => exact h
  | cons e rest ih => exact ih (step e s) (inv_step e s h)

theorem inv_mount : Inv (mount initState) :=
  ⟨by decide, by decide⟩

theorem inv_unmount (s : ComponentState) (h : Inv s) :
    Inv (unmount s) ∧ liveAfter [] (unmount s).log = [] := by
  obtain ⟨h1, h2⟩ := h
  cases hw : s.wavesurfer with
  | none =>
    have hcur : currentLive s = [] := by simp [currentLive, hw]
    refine ⟨⟨?_, ?_⟩, ?_⟩ <;> simp [unmount, hw, h1, h2, hcur, currentLive]
  | some ws =>
    have hcur : currentLive s = [ws.id] := by simp [currentLive, hw]
    have hlog : (unmount s).log = s.log ++ [InstAction.destroyed ws.id] := by
      simp [unmount, hw]
    have hws : (unmount s).wavesurfer = none := by simp [unmount, hw]
    have hlive : liveAfter [] (unmount s).log = [] := by
      rw [hlog, liveAfter_append, h2, hcur]
      simp [liveAfter]
    refine ⟨⟨?_, ?_⟩, hlive⟩
    · rw [hlog, logOk_append, h1, h2, hcur]
      simp [logOk, liveAfter]
    · rw [hlive]; simp [currentLive, hws]

/-! The claims. -/

/-- C1 (code evaluation at the failing input): starting from the state
sRec, in which a recording is in progress, a waveform-style change with the
microphone permission granted does destroy and recreate the instance, but
recording is NOT resumed: the final recording state is false and capture is
off, because the internally triggered stopRecording commits the recording
flag to false before the recreate effect reads it, making the restart
branch of initializeWaveSurfer unreachable. -/
theorem c1_waveform_change_while_recording_does_not_resume :
    sRec.isRecording = true ∧
    (handleWaveformChange WaveformType.line true sRec).log =
      sRec.log ++ [InstAction.destroyed 0, InstAction.created 1] ∧
    (handleWaveformChange WaveformType.line true sRec).isRecording = false ∧
    (handleWaveformChange WaveformType.line true sRec).recordActive = false := by
  decide

/-- C2 (counterexample): at the concrete state sRec, in which a recording
is in progress, initializeWaveSurfer with permission denied handles the
restart failure (the catch fires, appending a console error and clearing
the recording flag) yet shows no toast - so not every handled failure is
surfaced as a user-visible notification. -/
theorem c2_restart_failure_handled_without_notification :
    (initializeWaveSurfer false sRec).consoleErrors =
      sRec.consoleErrors ++ ["Error restarting recording"] ∧
    (initializeWaveSurfer false sRec).toasts = sRec.toasts ∧
    (initializeWaveSurfer false sRec).isRecording = false ∧
    ¬ (∀ s : ComponentState, ∀ p : Bool,
        (initializeWaveSurfer p s).consoleErrors ≠ s.consoleErrors →
        (initializeWaveSurfer p s).toasts ≠ s.toasts) := by
  refine ⟨by decide, by decide, by decide, fun h => ?_⟩
  exact absurd (by decide : (initializeWaveSurfer false sRec).toasts = sRec.toasts)
    (h sRec false (by decide))

/-- C2 (amended): the only failure mode handled is microphone permission
denial. In startRecording it is surfaced as a destructive (error) toast
with the state otherwise untouched; the restart catch inside
initializeWaveSurfer instead logs a console error and clears the recording
flag without any user-visible notification. -/
theorem c2_error_handling_amended (s : ComponentState) :
    startRecording false s = { s with toasts := s.toasts ++ [permissionDeniedToast] } ∧
    permissionDeniedToast.destructive = true ∧
    (initializeWaveSurfer false s).toasts = s.toasts ∧
    (s.isRecording = true →
      (initializeWaveSurfer false s).consoleErrors =
        s.consoleErrors ++ ["Error restarting recording"] ∧
      (initializeWaveSurfer false s).isRecording = false) := by
  refine ⟨rfl, rfl, (initializeWaveSurfer_char false s).2.2, fun h => ?_⟩
  cases hw : s.wavesurfer <;> simp [initializeWaveSurfer, hw, h]

/-- Witness for c2_error_handling_amended at the concrete recording state
sRec. -/
theorem c2_error_handling_amended_witness :
    (initializeWaveSurfer false sRec).consoleErrors =
      sRec.consoleErrors ++ ["Error restarting recording"] ∧
    (initializeWaveSurfer false sRec).isRecording = false :=
  (c2_error_handling_amended sRec).2.2.2 (by decide)

/-- C3: when the library's startRecording call fails (permission denied),
the component shows the destructive "Permission denied" toast and leaves
every other part of the state - in particular the recording flag -
unchanged. -/
theorem c3_denied_permission_leaves_state_unchanged (s : ComponentState) :
    startRecording false s = { s with toasts := s.toasts ++ [permissionDeniedToast] } ∧
    (startRecording false s).isRecording = s.isRecording ∧
    (startRecording false s).recordActive = s.recordActive ∧
    permissionDeniedToast.destructive = true :=
  ⟨rfl, rfl, rfl, rfl⟩

/-- C4: a theme selection only rewrites the current theme and the color
options of the existing instance; the instance is neither destroyed nor
recreated (the lifecycle log and the instance identity are untouched) and
an active recording is not interrupted (recording flag and record-plugin
capture state are untouched). -/
theorem c4_theme_change_keeps_instance_and_recording (t : Theme) (s : ComponentState) :
    handleThemeChange t s =
      { s with
          currentTheme := t
          wavesurfer := s.wavesurfer.map (fun ws =>
            { ws with options :=
                { ws.options with
                    waveColor := (visualizerThemes t).waveColor
                    progressColor := (visualizerThemes t).progressColor } }) } ∧
    (handleThemeChange t s).isRecording = s.isRecording ∧
    (handleThemeChange t s).recordActive = s.recordActive ∧
    (handleThemeChange t s).log = s.log ∧
    (handleThemeChange t s).wavesurfer.map (fun ws => ws.id) =
      s.wavesurfer.map (fun ws => ws.id) := by
  refine ⟨handleThemeChange_char t s, ?_, ?_, ?_, ?_⟩ <;>
    (rw [handleThemeChange_char]; try (cases hw : s.wavesurfer <;> simp [hw]))

/-- C5: when microphone access is granted, startRecording turns capture on,
sets the recording flag to true, and appends the "Recording started"
success toast. -/
theorem c5_granted_permission_starts_recording (s : ComponentState) :
    startRecording true s =
      { s with
          recordActive := true
          isRecording := true
          toasts := s.toasts ++ [recordingStartedToast] } ∧
    (startRecording true s).isRecording = true ∧
    recordingStartedToast.destructive = false :=
  ⟨rfl, rfl, rfl⟩

/-- C6: stopRecording stops capture and ends with the recording flag false,
whatever the state before the call was. -/
theorem c6_stop_recording_clears_state (s : ComponentState) :
    (stopRecording s).recordActive = false ∧ (stopRecording s).isRecording = false :=
  ⟨rfl, rfl⟩

/-- C7: along every event sequence from a mounted component, the
instance-lifecycle log is well formed - every WaveSurfer.create happens
only after the previous instance was destroyed, and every destroy targets
the live instance - so at most one instance is live at any time; replaying
the log yields exactly the instance the component holds; and after the
unmount cleanup the log is still well formed and no instance is left
live. -/
theorem c7_at_most_one_live_instance (es : List Event) :
    logOk [] (run es (mount initState)).log = true ∧
    liveAfter [] (run es (mount initState)).log = currentLive (run es (mount initState)) ∧
    logOk [] (unmount (run es (mount initState))).log = true ∧
    liveAfter [] (unmount (run es (mount initState))).log = [] := by
  have h := inv_run es (mount initState) inv_mount
  have hu := inv_unmount (run es (mount initState)) h
  exact ⟨h.1, h.2, hu.1.1, hu.2⟩

/-- C8 (counterexample): the line style is not a preset of all four
parameters - it sets neither bar gap nor bar corner radius (both are
absent, so the library defaults apply). -/
theorem c8_line_style_not_a_full_preset :
    (waveformTypes WaveformType.line).barGap = none ∧
    (waveformTypes WaveformType.line).barRadius = none ∧
    ¬ (∀ w : WaveformType,
        ((waveformTypes w).barGap).isSome = true ∧
        ((waveformTypes w).barRadius).isSome = true) := by
  refine ⟨rfl, rfl, fun h => ?_⟩
  exact absurd (h WaveformType.line).1 (by decide)

/-- C8 (amended): the theme set is exactly the fixed enumeration classic,
neon, sunset, each a preset of wave, progress and cursor color with the
listed values; the waveform-style set is exactly the fixed enumeration
bars, line, points, rounded, each setting bar width and the line-vs-bar
rendering mode, where bars, points and rounded also set bar gap and bar
corner radius while line leaves both unset. -/
theorem c8_theme_and_style_enumerations (t : Theme) (w : WaveformType) :
    (t = Theme.classic ∨ t = Theme.neon ∨ t = Theme.sunset) ∧
    (w = WaveformType.bars ∨ w = WaveformType.line ∨
      w = WaveformType.points ∨ w = WaveformType.rounded) ∧
    visualizerThemes Theme.classic = ⟨"#9b87f5", "#7E69AB", "transparent"⟩ ∧
    visualizerThemes Theme.neon = ⟨"#33C3F0", "#0EA5E9", "transparent"⟩ ∧
    visualizerThemes Theme.sunset = ⟨"#F97316", "#D946EF", "transparent"⟩ ∧
    waveformTypes WaveformType.bars = ⟨2, some 3, some 3, false⟩ ∧
    waveformTypes WaveformType.line = ⟨0, none, none, true⟩ ∧
    waveformTypes WaveformType.points = ⟨1, some 4, some 50, false⟩ ∧
    waveformTypes WaveformType.rounded = ⟨3, some 2, some 30, false⟩ :=
  ⟨by cases t <;> simp, by cases w <;> simp, rfl, rfl, rfl, rfl, rfl, rfl, rfl⟩

/-- C9: a theme change rewrites only the waveColor and progressColor
options of the existing instance; under any sequence of theme selections
the cursorColor option never changes, and at creation it equals the
current theme's cursor color, so it stays at the value the instance was
created with. -/
theorem c9_theme_changes_never_touch_cursor_color
    (ts : List Theme) (s : ComponentState) (t : Theme) (w : WaveformType) :
    (run (ts.map Event.themeChange) s).wavesurfer.map (fun ws => ws.options.cursorColor) =
      s.wavesurfer.map (fun ws => ws.options.cursorColor) ∧
    (handleThemeChange t s).wavesurfer = s.wavesurfer.map (fun ws =>
      { ws with options :=
          { ws.options with
              waveColor := (visualizerThemes t).waveColor
              progressColor := (visualizerThemes t).progressColor } }) ∧
    (createOptions t w).cursorColor = (visualizerThemes t).cursorColor := by
  refine ⟨?_, ?_, rfl⟩
  · induction ts generalizing s with
    | nil => rfl
    | cons a rest ih =>
      have hstep : (handleThemeChange a s).wavesurfer.map (fun ws => ws.options.cursorColor) =
          s.wavesurfer.map (fun ws => ws.options.cursorColor) := by
        rw [handleThemeChange_char]
        cases hw : s.wavesurfer <;> simp [hw]
      calc (run ((a :: rest).map Event.themeChange) s).wavesurfer.map
              (fun ws => ws.options.cursorColor)
          = (run (rest.map Event.themeChange) (handleThemeChange a s)).wavesurfer.map
              (fun ws => ws.options.cursorColor) := rfl
        _ = (handleThemeChange a s).wavesurfer.map (fun ws => ws.options.cursorColor) :=
              ih (handleThemeChange a s)
        _ = s.wavesurfer.map (fun ws => ws.options.cursorColor) := hstep
  · rw [handleThemeChange_char]

/-- C10: stopRecording always appends the "Recording stopped" toast and
ends with the recording flag false; in particular, when a waveform-style
change is requested while recording, the internally triggered stop shows
the same toast (the recreate step adds no further toasts). -/
theorem c10_stop_recording_always_notifies (s : ComponentState) (t : WaveformType) (p : Bool) :
    (stopRecording s).toasts = s.toasts ++ [recordingStoppedToast] ∧
    (stopRecording s).isRecording = false ∧
    (s.isRecording = true →
      (handleWaveformChange t p s).toasts = s.toasts ++ [recordingStoppedToast]) := by
  refine ⟨rfl, rfl, fun h => ?_⟩
  unfold handleWaveformChange
  rw [if_pos h]
  exact (initializeWaveSurfer_char p _).2.2

/-- Witness for c10_stop_recording_always_notifies: at the concrete
recording state sRec, a waveform-style change appends exactly the
"Recording stopped" toast. -/
theorem c10_stop_recording_always_notifies_witness :
    (handleWaveformChange WaveformType.line true sRec).toasts =
      sRec.toasts ++ [recordingStoppedToast] :=
  (c10_stop_recording_always_notifies sRec WaveformType.line true).2.2 (by decide)
